import Mathlib

/-!
Verification of the gene-record validation and CRUD orchestration layer of a
small genomics browser (files `tp7.py`, `sql_requests.py`, `tp4.py`).

The Python code is shallowly embedded: dynamically typed payload values become
the inductive `PyVal`, JSON payloads (Python dicts) become association lists,
exceptions (`KeyError`, `TypeError`, `sqlite3` errors) become an explicit
`Except PyErr` result, and the SQLite `Genes` table becomes a list of rows
threaded through every operation together with a trace of the SQL statements
issued.  Storage-layer failures are injected through a `FaultOracle`
parameter, mirroring the `try/except` blocks of the source.
-/

deriving instance DecidableEq for Except

/-- A Python runtime value, restricted to the types the gene payloads use:
integers, strings and `None`. -/
inductive PyVal where
  | vInt : Int → PyVal
  | vStr : String → PyVal
  | vNone : PyVal
  deriving DecidableEq

/-- A Python exception, as far as this layer can raise one: `KeyError` (with
the offending key), `TypeError`, and any error raised by the sqlite3 layer. -/
inductive PyErr where
  | keyError : String → PyErr
  | typeError : PyErr
  | sqlError : PyErr
  deriving DecidableEq

/-- A Python dict payload, as an association list of string keys to values.
A genuine dict has pairwise distinct keys. -/
abbrev Payload := List (String × PyVal)

/-- `data[k]` as a total lookup: the value stored under key `k`, if any. -/
def dictGet (d : Payload) (k : String) : Option PyVal :=
  (d.find? (fun p => p.1 == k)).map (fun p => p.2)

/-- Python `k in data`. -/
def dictHas (d : Payload) (k : String) : Bool :=
  (dictGet d k).isSome

/-- Python `data.get(k)`: the value under `k`, or `None` when absent. -/
def dictGetD (d : Payload) (k : String) : PyVal :=
  (dictGet d k).getD PyVal.vNone

/-- Python `len(data.keys())` (for a well-formed dict, the number of keys). -/
def dictLen (d : Payload) : Nat := d.length

/-- Python `data[k]`: the value under `k`, raising `KeyError` when absent. -/
def getItem (d : Payload) (k : String) : Except PyErr PyVal :=
  match dictGet d k with
  | some v => Except.ok v
  | none => Except.error (PyErr.keyError k)

/-- Python `a < b` on payload values: defined on two ints or two strings,
`TypeError` otherwise (in particular `str < int` raises, as in Python 3). -/
def pyLt : PyVal → PyVal → Except PyErr Bool
  | PyVal.vInt a, PyVal.vInt b => Except.ok (decide (a < b))
  | PyVal.vStr a, PyVal.vStr b => Except.ok (decide (a < b))
  | _, _ => Except.error PyErr.typeError

/-- Python `a > b` on payload values. -/
def pyGt : PyVal → PyVal → Except PyErr Bool
  | PyVal.vInt a, PyVal.vInt b => Except.ok (decide (b < a))
  | PyVal.vStr a, PyVal.vStr b => Except.ok (decide (b < a))
  | _, _ => Except.error PyErr.typeError

/-- Python `type(v) is int`. -/
def isIntVal : PyVal → Bool
  | PyVal.vInt _ => true
  | _ => false

/-- Python `type(v) is str`. -/
def isStrVal : PyVal → Bool
  | PyVal.vStr _ => true
  | _ => false

/-- One row of the `Genes` table, with the columns named in
`sql_requests.insert_new_gene`.  SQLite is dynamically typed, so every column
holds a `PyVal`. -/
structure GeneRow where
  gene_id : PyVal
  chromosome_name : PyVal
  band : PyVal
  gene_start : PyVal
  gene_end : PyVal
  strand : PyVal
  associated_gene_name : PyVal
  deriving DecidableEq

/-- The `Genes` table. -/
abbrev Storage := List GeneRow

/-- One SQL statement issued against the database, recorded in a trace. -/
inductive SqlCall where
  | callCheckExists : PyVal → SqlCall
  | callInsert : GeneRow → SqlCall
  | callBulkInsert : List GeneRow → SqlCall
  | callUpdate : GeneRow → SqlCall
  | callDelete : PyVal → SqlCall
  deriving DecidableEq

/-- Database state: the `Genes` table plus the trace of statements issued so
far (oldest first). -/
structure DBState where
  genes : Storage
  calls : List SqlCall
  deriving DecidableEq

/-- Injected storage failures: for each kind of mutating statement, whether
executing it against the given table contents raises a database error.  This
models the `except:` branches of `tp7.edition_gene`. -/
structure FaultOracle where
  failInsert : Storage → GeneRow → Bool
  failBulk : Storage → List GeneRow → Bool
  failUpdate : Storage → GeneRow → Bool
  failDelete : Storage → PyVal → Bool

/-- The oracle under which no storage statement fails spuriously. -/
def noFault : FaultOracle :=
  { failInsert := fun _ _ => false
    failBulk := fun _ _ => false
    failUpdate := fun _ _ => false
    failDelete := fun _ _ => false }

/-- An oracle under which every bulk-insert statement fails. -/
def failAllBulk : FaultOracle :=
  { noFault with failBulk := fun _ _ => true }

/-- An oracle under which every single-row insert statement fails. -/
def failAllInsert : FaultOracle :=
  { noFault with failInsert := fun _ _ => true }

/-- An oracle under which every update statement fails. -/
def failAllUpdate : FaultOracle :=
  { noFault with failUpdate := fun _ _ => true }

/-- An oracle under which every delete statement fails. -/
def failAllDelete : FaultOracle :=
  { noFault with failDelete := fun _ _ => true }

/-- `sql_requests.check_gene_exists`: `SELECT 1 FROM Genes WHERE
ensembl_gene_id = ?` is non-empty. -/
def check_gene_exists (G : Storage) (idv : PyVal) : Bool :=
  G.any (fun r => r.gene_id == idv)

/-- Building the row that `tp7.edition_gene` passes to
`sql_requests.insert_new_gene` (and `insert_bulk_new_genes` builds for each
dict): the five required keys are read with `data[...]` in source order — a
missing one raises `KeyError` — and the two optional keys with `data.get`. -/
def geneRowOfPayload (d : Payload) : Except PyErr GeneRow := do
  let idv ← getItem d "Ensemble_Gene_ID"
  let ch ← getItem d "Chromosome_Name"
  let bd ← getItem d "Band"
  let gs ← getItem d "Gene_Start"
  let ge ← getItem d "Gene_End"
  pure { gene_id := idv, chromosome_name := ch, band := bd, gene_start := gs,
         gene_end := ge, strand := dictGetD d "Strand",
         associated_gene_name := dictGetD d "Associated_Gene_Name" }

/-- `sql_requests.insert_new_gene`.  Modelled from the spec: the `Genes`
table's schema lives in the sqlite file, not in the source tree; per the spec
(`gene_id` is the primary key, unique across the collection) inserting a row
whose id is already present violates the constraint and raises
`sqlite3.IntegrityError`, which the function's own docstring announces.
A statement failure leaves the table unchanged (single-statement commit). -/
def insert_new_gene (F : FaultOracle) (st : DBState) (g : GeneRow) :
    Option PyErr × DBState :=
  let st1 : DBState := { st with calls := st.calls ++ [SqlCall.callInsert g] }
  if F.failInsert st.genes g then (some PyErr.sqlError, st1)
  else if check_gene_exists st.genes g.gene_id then (some PyErr.sqlError, st1)
  else (none, { st1 with genes := st.genes ++ [g] })

/-- `insertRows G rs`: the effect of `executemany` inserting `rs` into `G`
row by row, `none` when some row violates the primary-key constraint
(against the table or an earlier row of the same statement). -/
def insertRows : Storage → List GeneRow → Option Storage
  | G, [] => some G
  | G, g :: rest =>
    if check_gene_exists G g.gene_id then none
    else insertRows (G ++ [g]) rest

/-- The tuple-building loop of `sql_requests.insert_bulk_new_genes`: one row
per dict, in order, raising `KeyError` at the first dict missing a required
key. -/
def rowsOfPayloads : List Payload → Except PyErr (List GeneRow)
  | [] => Except.ok []
  | d :: rest => do
    let g ← geneRowOfPayload d
    let gs ← rowsOfPayloads rest
    pure (g :: gs)

/-- `sql_requests.insert_bulk_new_genes`: builds the tuples first (a missing
required key raises `KeyError` before any SQL runs), then runs one
`executemany` followed by a single commit, so a failing statement commits
nothing from the chunk. -/
def insert_bulk_new_genes (F : FaultOracle) (st : DBState)
    (items : List Payload) : Option PyErr × DBState :=
  match rowsOfPayloads items with
  | Except.error e => (some e, st)
  | Except.ok rows =>
    let st1 : DBState := { st with calls := st.calls ++ [SqlCall.callBulkInsert rows] }
    if F.failBulk st.genes rows then (some PyErr.sqlError, st1)
    else
      match insertRows st.genes rows with
      | some G2 => (none, { st1 with genes := G2 })
      | none => (some PyErr.sqlError, st1)

/-- The effect of `sql_requests.update_gene`'s `UPDATE` statement: every row
matching the id gets its six non-id columns replaced. -/
def applyUpdate (G : Storage) (g : GeneRow) : Storage :=
  G.map (fun r =>
    if r.gene_id == g.gene_id then
      { r with chromosome_name := g.chromosome_name, band := g.band,
               gene_start := g.gene_start, gene_end := g.gene_end,
               strand := g.strand, associated_gene_name := g.associated_gene_name }
    else r)

/-- `sql_requests.update_gene` (the later, seven-argument definition, which
shadows the earlier two-argument one): `UPDATE Genes SET ... WHERE
ensembl_gene_id = ?`; matching zero rows is not an error. -/
def update_gene (F : FaultOracle) (st : DBState) (g : GeneRow) :
    Option PyErr × DBState :=
  let st1 : DBState := { st with calls := st.calls ++ [SqlCall.callUpdate g] }
  if F.failUpdate st.genes g then (some PyErr.sqlError, st1)
  else (none, { st1 with genes := applyUpdate st.genes g })

/-- `sql_requests.delete_gene`: `DELETE FROM Genes WHERE ensembl_gene_id = ?`. -/
def delete_gene (F : FaultOracle) (st : DBState) (idv : PyVal) :
    Option PyErr × DBState :=
  let st1 : DBState := { st with calls := st.calls ++ [SqlCall.callDelete idv] }
  if F.failDelete st.genes idv then (some PyErr.sqlError, st1)
  else (none, { st1 with genes := st.genes.filter (fun r => !(r.gene_id == idv)) })

/-- The required fields of `tp7.verification_data_gene`. -/
def requiredFields : List String :=
  ["Ensemble_Gene_ID", "Chromosome_Name", "Band", "Gene_Start", "Gene_End"]

/-- Line 76 of `tp7.py`: `type(data["Gene_Start"]) is not int or
type(data["Gene_End"]) is not int`, with Python's evaluation order — the
reads run even when the required-fields check already failed, a missing
`Gene_Start` raises `KeyError`, and `Gene_End` is read only when the first
disjunct is false (i.e. when `Gene_Start` is an int). -/
def vCheck2 (data : Payload) : Except PyErr Bool := do
  let gs ← getItem data "Gene_Start"
  if !(isIntVal gs) then pure true
  else do
    let ge ← getItem data "Gene_End"
    pure (!(isIntVal ge))

/-- Line 79 of `tp7.py`: `data["Gene_Start"] < 0 or data["Gene_End"] < 0 or
data["Gene_Start"] > data["Gene_End"]`, again with short-circuit evaluation;
comparing a non-int `Gene_Start` with `0` raises `TypeError`. -/
def vCheck3 (data : Payload) : Except PyErr Bool := do
  let gs ← getItem data "Gene_Start"
  let b1 ← pyLt gs (PyVal.vInt 0)
  if b1 then pure true
  else do
    let ge ← getItem data "Gene_End"
    let b2 ← pyLt ge (PyVal.vInt 0)
    if b2 then pure true
    else pyGt gs ge

/-- The `resp_code` chain of `tp7.verification_data_gene` lines 69–89:
`resp_code` starts at 201 and each failing check overwrites it with 400
(given the outcomes `c2`, `c3` of the two checks that read fields
monadically).  Since every overwrite stores the same 400, the sequential
chain is exactly "400 if some check failed, else 201", rendered here with
the last write outermost. -/
def vShapeCode (data : Payload) (c2 c3 : Bool) : Nat :=
  if dictLen data > requiredFields.length + 2 then 400
  else if dictHas data "Associated_Gene_Name" &&
          !(isStrVal (dictGetD data "Associated_Gene_Name")) then 400
  else if dictHas data "Strand" && !(isIntVal (dictGetD data "Strand")) then 400
  else if c3 then 400
  else if c2 then 400
  else if (requiredFields.filter (fun f => !(dictHas data f))).length > 0 then 400
  else 201

/-- The storage-independent part of `tp7.verification_data_gene` (source lines
69–89): run the two field-reading checks in source order (their reads and
possible exceptions interleave with the pure `resp_code` updates exactly as
in the source, since the updates touch no fields), then compute the
`resp_code` chain. -/
def vShapeChecks (data : Payload) : Except PyErr Nat := do
  let c2 ← vCheck2 data
  let c3 ← vCheck3 data
  pure (vShapeCode data c2 c3)

/-- `tp7.verification_data_gene`: the shape checks of lines 69–89 followed by
line 91, `resp_code = 409 if check_gene_exists(data["Ensemble_Gene_ID"]) else
resp_code`.  Returns the response code together with the SQL statements the
function issued. -/
def verification_data_gene (G : Storage) (data : Payload) :
    Except PyErr (Nat × List SqlCall) := do
  let resp ← vShapeChecks data
  let idv ← getItem data "Ensemble_Gene_ID"
  pure (if check_gene_exists G idv then 409 else resp,
        [SqlCall.callCheckExists idv])

/-- The `data` argument of `tp7.edition_gene`: a dict, a list of dicts, or
any other Python value. -/
inductive EditData where
  | pyDict : Payload → EditData
  | pyList : List Payload → EditData
  | pyOther : EditData
  deriving DecidableEq

/-- Python `data["Ensemble_Gene_ID"]` on an arbitrary `data`: subscripting a
non-dict with a string raises `TypeError`. -/
def dataGetItem : EditData → String → Except PyErr PyVal
  | EditData.pyDict d, k => getItem d k
  | _, _ => Except.error PyErr.typeError

/-- The validation loop of the bulk branch of `tp7.edition_gene` (lines
138–145): validate the items in order, appending each accepted item to
`bulk`; on the first item whose code is not 201, record that code and stop.
Returns the final `resp_code`, the accumulated `bulk`, and the SQL calls
issued. -/
def bulkValidate (G : Storage) : List Payload →
    Except PyErr (Nat × List Payload × List SqlCall)
  | [] => Except.ok (201, [], [])
  | item :: rest => do
    let (code, cs) ← verification_data_gene G item
    if code != 201 then Except.ok (code, [], cs)
    else do
      let (resp, bulk, cs2) ← bulkValidate G rest
      Except.ok (resp, item :: bulk, cs ++ cs2)

/-- Fuel-driven worker for `chunksOf`. -/
def chunksOfAux (n : Nat) : Nat → List α → List (List α)
  | 0, _ => []
  | _, [] => []
  | fuel + 1, x :: xs =>
    (x :: xs.take (n - 1)) :: chunksOfAux n fuel (xs.drop (n - 1))

/-- `[l[i:i+n] for i in range(0, len(l), n)]`: the chunking of the bulk
branch (lines 146–148, with `bulks_size = 100`). -/
def chunksOf (n : Nat) (l : List α) : List (List α) :=
  chunksOfAux n l.length l

/-- The chunk-insert loop of the bulk branch (lines 147–153): insert each
chunk with one `insert_bulk_new_genes` call; on a failure set 500 and stop. -/
def bulkInsertLoop (F : FaultOracle) (resp : Nat) :
    DBState → List (List Payload) → Nat × DBState
  | st, [] => (resp, st)
  | st, c :: rest =>
    match insert_bulk_new_genes F st c with
    | (some _, st2) => (500, st2)
    | (none, st2) => bulkInsertLoop F resp st2 rest

/-- The `mode == "new"`, dict branch of `tp7.edition_gene` (lines 110–124). -/
def newDictPath (F : FaultOracle) (st : DBState) (d : Payload) :
    Except PyErr (Nat × DBState) := do
  let (resp, vcs) ← verification_data_gene st.genes d
  let st1 : DBState := { st with calls := st.calls ++ vcs }
  if resp == 201 then
    match geneRowOfPayload d with
    | Except.error _ => Except.ok (500, st1)
    | Except.ok g =>
      match insert_new_gene F st1 g with
      | (some _, st2) => Except.ok (500, st2)
      | (none, st2) => Except.ok (201, st2)
  else Except.ok (resp, st1)

/-- The `mode == "new"`, list branch of `tp7.edition_gene` (lines 125–153). -/
def newListPath (F : FaultOracle) (st : DBState) (l : List Payload) :
    Except PyErr (Nat × DBState) := do
  let (resp, bulk, cs) ← bulkValidate st.genes l
  let st1 : DBState := { st with calls := st.calls ++ cs }
  Except.ok (bulkInsertLoop F resp st1 (chunksOf 100 bulk))

/-- The `mode == "delete"` branch of `tp7.edition_gene` (lines 155–166): a
non-existing id short-circuits to 200 (after a transient 404); otherwise the
delete statement runs and the `finally` clause forces 200 whether or not it
failed. -/
def deletePath (F : FaultOracle) (st : DBState) (data : EditData) :
    Except PyErr (Nat × DBState) := do
  let idv ← dataGetItem data "Ensemble_Gene_ID"
  let st1 : DBState := { st with calls := st.calls ++ [SqlCall.callCheckExists idv] }
  if !(check_gene_exists st.genes idv) then Except.ok (200, st1)
  else
    match delete_gene F st1 idv with
    | (_, st2) => Except.ok (200, st2)

/-- The `mode == "update"` branch of `tp7.edition_gene` (lines 169–205):
validate, force 400 on a target-id mismatch, fold 409 to 200 and keep 201,
then insert (201) or update (200), mapping a statement failure to 500.
Calling it on a non-dict raises inside `verification_data_gene`. -/
def updatePathDict (F : FaultOracle) (st : DBState) (d : Payload)
    (gene_id : PyVal) : Except PyErr (Nat × DBState) := do
  let (vresp, vcs) ← verification_data_gene st.genes d
  let st1 : DBState := { st with calls := st.calls ++ vcs }
  let idv ← getItem d "Ensemble_Gene_ID"
  let resp := if gene_id ≠ idv then 400 else vresp
  let resp := if resp == 201 || resp == 409 then
                (if resp == 409 then 200 else 201)
              else resp
  if resp == 201 then
    match geneRowOfPayload d with
    | Except.error _ => Except.ok (500, st1)
    | Except.ok g =>
      match insert_new_gene F st1 g with
      | (some _, st2) => Except.ok (500, st2)
      | (none, st2) => Except.ok (201, st2)
  else if resp == 200 then
    match geneRowOfPayload d with
    | Except.error _ => Except.ok (500, st1)
    | Except.ok g =>
      match update_gene F st1 g with
      | (some _, st2) => Except.ok (500, st2)
      | (none, st2) => Except.ok (200, st2)
  else Except.ok (resp, st1)

/-- Dispatch of the update branch on the shape of `data`: on a non-dict the
first statement, `verification_data_gene(data)`, raises `TypeError`. -/
def updatePath (F : FaultOracle) (st : DBState) (data : EditData)
    (gene_id : PyVal) : Except PyErr (Nat × DBState) :=
  match data with
  | EditData.pyDict d => updatePathDict F st d gene_id
  | _ => Except.error PyErr.typeError

/-- `tp7.edition_gene`: mode dispatch of lines 110, 125, 155, 169 and 206.
`mode == "new"` with a `data` that is neither a dict nor a list falls through
to the final `else` and returns 400. -/
def edition_gene (F : FaultOracle) (st : DBState) (mode : String)
    (data : EditData) (gene_id : PyVal) : Except PyErr (Nat × DBState) :=
  if mode == "new" then
    match data with
    | EditData.pyDict d => newDictPath F st d
    | EditData.pyList l => newListPath F st l
    | EditData.pyOther => Except.ok (400, st)
  else if mode == "delete" then deletePath F st data
  else if mode == "update" then updatePath F st data gene_id
  else Except.ok (400, st)

/-- The batch count `tp4.api_edition_gene` reports on a successful bulk
create: `math.ceil(len(created_urls)/100)` with `created_urls` one URL per
submitted record, i.e. the ceiling of `n / 100`. -/
def api_bulk_count (data : List Payload) : Nat :=
  (data.length + 99) / 100

/-- The bulk-insert statements recorded in a trace, in order. -/
def bulkCalls (cs : List SqlCall) : List (List GeneRow) :=
  cs.filterMap (fun c =>
    match c with
    | SqlCall.callBulkInsert rs => some rs
    | _ => none)

/-- The empty database state. -/
def dbEmpty : DBState := { genes := [], calls := [] }

/-! ### Concrete records used in counterexamples and witnesses -/

/-- A well-formed gene payload with id `"A1"`. -/
def c1okP : Payload :=
  [("Ensemble_Gene_ID", PyVal.vStr "A1"), ("Chromosome_Name", PyVal.vStr "1"),
   ("Band", PyVal.vStr "q11"), ("Gene_Start", PyVal.vInt 1), ("Gene_End", PyVal.vInt 2)]

/-- The row `c1okP` inserts. -/
def c1okRow : GeneRow :=
  { gene_id := PyVal.vStr "A1", chromosome_name := PyVal.vStr "1",
    band := PyVal.vStr "q11", gene_start := PyVal.vInt 1, gene_end := PyVal.vInt 2,
    strand := PyVal.vNone, associated_gene_name := PyVal.vNone }

/-- A malformed gene payload (start 5 > end 2) with id `"A2"`. -/
def c1badP : Payload :=
  [("Ensemble_Gene_ID", PyVal.vStr "A2"), ("Chromosome_Name", PyVal.vStr "1"),
   ("Band", PyVal.vStr "q11"), ("Gene_Start", PyVal.vInt 5), ("Gene_End", PyVal.vInt 2)]

/-- A malformed gene payload (start 5 > end 2) with id `"B1"`. -/
def c2dupP : Payload :=
  [("Ensemble_Gene_ID", PyVal.vStr "B1"), ("Chromosome_Name", PyVal.vStr "2"),
   ("Band", PyVal.vStr "p12"), ("Gene_Start", PyVal.vInt 5), ("Gene_End", PyVal.vInt 2)]

/-- A stored row whose id `"B1"` collides with `c2dupP`. -/
def c2row : GeneRow :=
  { gene_id := PyVal.vStr "B1", chromosome_name := PyVal.vStr "2",
    band := PyVal.vStr "p12", gene_start := PyVal.vInt 1, gene_end := PyVal.vInt 9,
    strand := PyVal.vNone, associated_gene_name := PyVal.vNone }

/-- A payload missing the required field `Gene_Start`. -/
def c3missP : Payload :=
  [("Ensemble_Gene_ID", PyVal.vStr "C1"), ("Chromosome_Name", PyVal.vStr "3"),
   ("Band", PyVal.vStr "q21"), ("Gene_End", PyVal.vInt 10)]

/-- A malformed gene payload (start 5 > end 2) with id `"D1"`. -/
def c4badP : Payload :=
  [("Ensemble_Gene_ID", PyVal.vStr "D1"), ("Chromosome_Name", PyVal.vStr "4"),
   ("Band", PyVal.vStr "q22"), ("Gene_Start", PyVal.vInt 5), ("Gene_End", PyVal.vInt 2)]

/-- A well-formed gene payload with id `"D4"`. -/
def c4updP : Payload :=
  [("Ensemble_Gene_ID", PyVal.vStr "D4"), ("Chromosome_Name", PyVal.vStr "4"),
   ("Band", PyVal.vStr "q23"), ("Gene_Start", PyVal.vInt 3), ("Gene_End", PyVal.vInt 9)]

/-- The row `c4updP` describes. -/
def c4updRow : GeneRow :=
  { gene_id := PyVal.vStr "D4", chromosome_name := PyVal.vStr "4",
    band := PyVal.vStr "q23", gene_start := PyVal.vInt 3, gene_end := PyVal.vInt 9,
    strand := PyVal.vNone, associated_gene_name := PyVal.vNone }

/-- A stored row with id `"D4"` and older field values. -/
def c4oldRow : GeneRow :=
  { gene_id := PyVal.vStr "D4", chromosome_name := PyVal.vStr "X",
    band := PyVal.vStr "p1", gene_start := PyVal.vInt 1, gene_end := PyVal.vInt 2,
    strand := PyVal.vInt 1, associated_gene_name := PyVal.vStr "OLD" }

/-- A delete payload naming id `"F1"`. -/
def c5delP : Payload := [("Ensemble_Gene_ID", PyVal.vStr "F1")]

/-- A well-formed gene payload with id `"K1"`. -/
def c6p1 : Payload :=
  [("Ensemble_Gene_ID", PyVal.vStr "K1"), ("Chromosome_Name", PyVal.vStr "6"),
   ("Band", PyVal.vStr "q1"), ("Gene_Start", PyVal.vInt 10), ("Gene_End", PyVal.vInt 20)]

/-- The row `c6p1` inserts. -/
def c6r1 : GeneRow :=
  { gene_id := PyVal.vStr "K1", chromosome_name := PyVal.vStr "6",
    band := PyVal.vStr "q1", gene_start := PyVal.vInt 10, gene_end := PyVal.vInt 20,
    strand := PyVal.vNone, associated_gene_name := PyVal.vNone }

/-- A well-formed gene payload with id `"K2"`. -/
def c6p2 : Payload :=
  [("Ensemble_Gene_ID", PyVal.vStr "K2"), ("Chromosome_Name", PyVal.vStr "6"),
   ("Band", PyVal.vStr "q2"), ("Gene_Start", PyVal.vInt 30), ("Gene_End", PyVal.vInt 40)]

/-- The row `c6p2` inserts. -/
def c6r2 : GeneRow :=
  { gene_id := PyVal.vStr "K2", chromosome_name := PyVal.vStr "6",
    band := PyVal.vStr "q2", gene_start := PyVal.vInt 30, gene_end := PyVal.vInt 40,
    strand := PyVal.vNone, associated_gene_name := PyVal.vNone }

/-- A well-formed gene payload with id `"K3"`. -/
def c6p3 : Payload :=
  [("Ensemble_Gene_ID", PyVal.vStr "K3"), ("Chromosome_Name", PyVal.vStr "6"),
   ("Band", PyVal.vStr "q3"), ("Gene_Start", PyVal.vInt 50), ("Gene_End", PyVal.vInt 60)]

/-- The row `c6p3` inserts. -/
def c6r3 : GeneRow :=
  { gene_id := PyVal.vStr "K3", chromosome_name := PyVal.vStr "6",
    band := PyVal.vStr "q3", gene_start := PyVal.vInt 50, gene_end := PyVal.vInt 60,
    strand := PyVal.vNone, associated_gene_name := PyVal.vNone }

/-- A payload with the five required keys plus one unrecognized key
`"Junk_Key"` — six keys in total, within the seven-field budget. -/
def c7junkP : Payload :=
  [("Ensemble_Gene_ID", PyVal.vStr "E1"), ("Chromosome_Name", PyVal.vStr "7"),
   ("Band", PyVal.vStr "q31"), ("Gene_Start", PyVal.vInt 1), ("Gene_End", PyVal.vInt 2),
   ("Junk_Key", PyVal.vInt 0)]

/-- A payload with eight keys: the five required, the two optional, and one
unrecognized key. -/
def c7bigP : Payload :=
  [("Ensemble_Gene_ID", PyVal.vStr "E2"), ("Chromosome_Name", PyVal.vStr "7"),
   ("Band", PyVal.vStr "q32"), ("Gene_Start", PyVal.vInt 1), ("Gene_End", PyVal.vInt 2),
   ("Strand", PyVal.vInt 1), ("Associated_Gene_Name", PyVal.vStr "NAME"),
   ("Junk_Key", PyVal.vInt 0)]

/-- A well-formed gene payload with id `"H1"`. -/
def c8newP : Payload :=
  [("Ensemble_Gene_ID", PyVal.vStr "H1"), ("Chromosome_Name", PyVal.vStr "8"),
   ("Band", PyVal.vStr "q41"), ("Gene_Start", PyVal.vInt 100), ("Gene_End", PyVal.vInt 200)]

/-- The row `c8newP` inserts. -/
def c8newRow : GeneRow :=
  { gene_id := PyVal.vStr "H1", chromosome_name := PyVal.vStr "8",
    band := PyVal.vStr "q41", gene_start := PyVal.vInt 100, gene_end := PyVal.vInt 200,
    strand := PyVal.vNone, associated_gene_name := PyVal.vNone }

/-! ## Helper lemmas: `Except` reductions -/

@[simp] theorem exc_bind_ok {α β : Type _} (a : α) (f : α → Except PyErr β) :
    (Except.ok a : Except PyErr α) >>= f = f a := rfl

@[simp] theorem exc_bind_error {α β : Type _} (e : PyErr) (f : α → Except PyErr β) :
    (Except.error e : Except PyErr α) >>= f = Except.error e := rfl

@[simp] theorem exc_pure_eq {α : Type _} (a : α) :
    (pure a : Except PyErr α) = Except.ok a := rfl

@[simp] theorem exc_map_ok {α β : Type _} (f : α → β) (a : α) :
    (Except.ok a : Except PyErr α).map f = Except.ok (f a) := rfl

@[simp] theorem exc_map_error {α β : Type _} (f : α → β) (e : PyErr) :
    (Except.error e : Except PyErr α).map f = Except.error e := rfl

theorem exc_mapFst_ok {α : Type _} {e : Except PyErr (Nat × α)} {c : Nat}
    (h : e.map Prod.fst = Except.ok c) : ∃ x, e = Except.ok (c, x) := by
  cases e with
  | error err => simp at h
  | ok p =>
    obtain ⟨a, b⟩ := p
    simp at h
    exact ⟨b, by rw [h]⟩

/-! ## Helper lemmas: the validator -/

theorem vCheck23_int {d : Payload} {a b : Int}
    (hgs : dictGet d "Gene_Start" = some (PyVal.vInt a))
    (hge : dictGet d "Gene_End" = some (PyVal.vInt b)) :
    vCheck2 d = Except.ok false ∧
    vCheck3 d = Except.ok (decide (a < 0) || decide (b < 0) || decide (b < a)) := by
  constructor
  · simp [vCheck2, getItem, hgs, hge, isIntVal]
  · simp only [vCheck3, getItem, hgs, hge, pyLt, pyGt, exc_bind_ok, exc_pure_eq]
    by_cases ha : a < 0
    · simp [ha]
    · by_cases hb : b < 0 <;> simp [ha, hb]

theorem vShapeChecks_ok_elim {d : Payload} {c : Nat}
    (h : vShapeChecks d = Except.ok c) :
    ∃ c2 c3, vCheck2 d = Except.ok c2 ∧ vCheck3 d = Except.ok c3 ∧
      c = vShapeCode d c2 c3 := by
  unfold vShapeChecks at h
  cases h2 : vCheck2 d with
  | error e => rw [h2] at h; simp at h
  | ok c2 =>
    rw [h2] at h
    cases h3 : vCheck3 d with
    | error e => rw [h3] at h; simp at h
    | ok c3 =>
      rw [h3] at h
      simp at h
      exact ⟨c2, c3, rfl, rfl, h.symm⟩

theorem vShapeChecks_intro {d : Payload} {c2 c3 : Bool}
    (h2 : vCheck2 d = Except.ok c2) (h3 : vCheck3 d = Except.ok c3) :
    vShapeChecks d = Except.ok (vShapeCode d c2 c3) := by
  unfold vShapeChecks
  rw [h2]
  simp [h3]

theorem vShapeCode_mem (d : Payload) (c2 c3 : Bool) :
    vShapeCode d c2 c3 = 201 ∨ vShapeCode d c2 c3 = 400 := by
  unfold vShapeCode
  split_ifs <;> simp

theorem vShapeCode_201_elim {d : Payload} {c2 c3 : Bool}
    (h : vShapeCode d c2 c3 = 201) :
    ∀ f ∈ requiredFields, dictHas d f = true := by
  unfold vShapeCode at h
  split_ifs at h with h1 h2 h3 h4 h5 h6 <;> try omega
  intro f hf
  have hnil : requiredFields.filter (fun g => !(dictHas d g)) = [] :=
    List.eq_nil_of_length_eq_zero (by omega)
  have hf2 := List.filter_eq_nil_iff.mp hnil f hf
  simpa using hf2

theorem vShapeCode_c3_true (d : Payload) (c2 : Bool) :
    vShapeCode d c2 true = 400 := by
  unfold vShapeCode
  split_ifs <;> simp_all

theorem vShapeCode_count {d : Payload} (c2 c3 : Bool)
    (h : dictLen d > requiredFields.length + 2) :
    vShapeCode d c2 c3 = 400 := by
  unfold vShapeCode
  simp [h]

theorem rowOfPayload_of_fields {d : Payload}
    (h : ∀ f ∈ requiredFields, dictHas d f = true) :
    ∃ row, geneRowOfPayload d = Except.ok row ∧
      dictGet d "Ensemble_Gene_ID" = some row.gene_id := by
  have hid := h "Ensemble_Gene_ID" (by simp [requiredFields])
  have hch := h "Chromosome_Name" (by simp [requiredFields])
  have hbd := h "Band" (by simp [requiredFields])
  have hgs := h "Gene_Start" (by simp [requiredFields])
  have hge := h "Gene_End" (by simp [requiredFields])
  rw [dictHas, Option.isSome_iff_exists] at hid hch hbd hgs hge
  obtain ⟨vid, hid⟩ := hid
  obtain ⟨vch, hch⟩ := hch
  obtain ⟨vbd, hbd⟩ := hbd
  obtain ⟨vgs, hgs⟩ := hgs
  obtain ⟨vge, hge⟩ := hge
  refine ⟨{ gene_id := vid, chromosome_name := vch, band := vbd,
            gene_start := vgs, gene_end := vge, strand := dictGetD d "Strand",
            associated_gene_name := dictGetD d "Associated_Gene_Name" }, ?_, hid⟩
  simp [geneRowOfPayload, getItem, hid, hch, hbd, hgs, hge]

theorem verif_intro {G : Storage} {d : Payload} {c0 : Nat} {idv : PyVal}
    (hv : vShapeChecks d = Except.ok c0)
    (hid : dictGet d "Ensemble_Gene_ID" = some idv) :
    verification_data_gene G d =
      Except.ok ((if check_gene_exists G idv then 409 else c0),
                 [SqlCall.callCheckExists idv]) := by
  unfold verification_data_gene
  rw [hv]
  simp [getItem, hid]

theorem verif_ok_elim {G : Storage} {d : Payload} {c : Nat} {cs : List SqlCall}
    (h : verification_data_gene G d = Except.ok (c, cs)) :
    ∃ c0 idv, vShapeChecks d = Except.ok c0 ∧
      dictGet d "Ensemble_Gene_ID" = some idv ∧
      c = (if check_gene_exists G idv then 409 else c0) ∧
      cs = [SqlCall.callCheckExists idv] := by
  unfold verification_data_gene at h
  cases hv : vShapeChecks d with
  | error e => rw [hv] at h; simp at h
  | ok c0 =>
    rw [hv] at h
    cases hid : dictGet d "Ensemble_Gene_ID" with
    | none => simp [getItem, hid] at h
    | some idv =>
      simp [getItem, hid] at h
      exact ⟨c0, idv, rfl, rfl, h.1.symm, h.2.symm⟩

theorem verif_ok_bulkCalls {G : Storage} {d : Payload} {c : Nat}
    {cs : List SqlCall} (h : verification_data_gene G d = Except.ok (c, cs)) :
    bulkCalls cs = [] := by
  obtain ⟨c0, idv, -, -, -, hcs⟩ := verif_ok_elim h
  subst hcs
  rfl

theorem verif_201_elim {G : Storage} {d : Payload} {cs : List SqlCall}
    (h : verification_data_gene G d = Except.ok (201, cs)) :
    ∃ row, geneRowOfPayload d = Except.ok row ∧
      dictGet d "Ensemble_Gene_ID" = some row.gene_id ∧
      check_gene_exists G row.gene_id = false ∧
      vShapeChecks d = Except.ok 201 ∧
      cs = [SqlCall.callCheckExists row.gene_id] := by
  obtain ⟨c0, idv, hv, hid, hc, hcs⟩ := verif_ok_elim h
  by_cases hex : check_gene_exists G idv
  · rw [if_pos hex] at hc; omega
  · rw [if_neg hex] at hc
    subst hc
    obtain ⟨c2, c3, -, -, hcode⟩ := vShapeChecks_ok_elim hv
    obtain ⟨row, hrow, hid2⟩ :=
      rowOfPayload_of_fields (vShapeCode_201_elim hcode.symm)
    have hsame : idv = row.gene_id := by rw [hid] at hid2; injection hid2
    subst hsame
    exact ⟨row, hrow, hid, by simpa using hex, hv, hcs⟩

/-! ## Helper lemmas: the delete branch -/

theorem delete_result (F : FaultOracle) (st0 : DBState) (d : Payload)
    (gid idv : PyVal) (h : dictGet d "Ensemble_Gene_ID" = some idv) :
    ∃ st1, edition_gene F st0 "delete" (EditData.pyDict d) gid =
        Except.ok (200, st1) ∧
      (check_gene_exists st0.genes idv = false → st1.genes = st0.genes) := by
  unfold edition_gene deletePath
  simp only [dataGetItem, getItem, h, exc_bind_ok]
  by_cases hex : check_gene_exists st0.genes idv
  · unfold delete_gene
    by_cases hfail : F.failDelete st0.genes idv
    · exact ⟨{ genes := st0.genes,
               calls := st0.calls ++ [SqlCall.callCheckExists idv, SqlCall.callDelete idv] },
        by simp [hex, hfail], fun hc => absurd hex (by simp [hc])⟩
    · exact ⟨{ genes := st0.genes.filter (fun r => !(r.gene_id == idv)),
               calls := st0.calls ++ [SqlCall.callCheckExists idv, SqlCall.callDelete idv] },
        by simp [hex, hfail], fun hc => absurd hex (by simp [hc])⟩
  · simp [hex]

/-! ## Claims C10, C9, C5 -/

/-- C10: calling `edition_gene` with mode `"new"` and an empty list returns
201 (CREATED) and leaves the database state — `Genes` table and statement
trace — exactly unchanged, under every fault oracle: no record is validated
and no SQL statement is issued. -/
theorem C10_empty_bulk (F : FaultOracle) (st : DBState) (gid : PyVal) :
    edition_gene F st "new" (EditData.pyList []) gid = Except.ok (201, st) := by
  simp [edition_gene, newListPath, bulkValidate, chunksOf, chunksOfAux,
        bulkInsertLoop]

/-- C9: for every mode other than `"new"`, `"delete"` and `"update"` — and
for mode `"new"` with a payload that is neither a dict nor a list —
`edition_gene` returns 400 (BAD_REQUEST) with the database state exactly
unchanged, so no storage call is performed. -/
theorem C9_invalid_mode (F : FaultOracle) (st : DBState) (mode : String)
    (data : EditData) (gid : PyVal)
    (h : (mode ≠ "new" ∧ mode ≠ "delete" ∧ mode ≠ "update") ∨
         (mode = "new" ∧ data = EditData.pyOther)) :
    edition_gene F st mode data gid = Except.ok (400, st) := by
  rcases h with ⟨h1, h2, h3⟩ | ⟨h1, h2⟩
  · simp [edition_gene, h1, h2, h3]
  · subst h1
    subst h2
    simp [edition_gene]

/-- Witness for C9 at the concrete mode `"frobnicate"` (and at mode `"new"`
with a non-dict, non-list payload). -/
theorem C9_invalid_mode_witness :
    edition_gene noFault dbEmpty "frobnicate" EditData.pyOther PyVal.vNone =
      Except.ok (400, dbEmpty) ∧
    edition_gene noFault dbEmpty "new" EditData.pyOther PyVal.vNone =
      Except.ok (400, dbEmpty) :=
  ⟨C9_invalid_mode noFault dbEmpty "frobnicate" EditData.pyOther PyVal.vNone
      (Or.inl (by decide)),
   C9_invalid_mode noFault dbEmpty "new" EditData.pyOther PyVal.vNone
      (Or.inr ⟨rfl, rfl⟩)⟩

/-- C5: a delete call on a payload carrying some id always returns 200 (OK) —
whether or not the id exists, and under every fault oracle, in particular
when the delete statement itself fails — never 500; deleting a non-existing
id leaves the `Genes` table unchanged; and deleting the same id twice (the
second call running on whatever state the first left) returns 200 both
times. -/
theorem C5_delete_always_ok (F : FaultOracle) (st : DBState) (d : Payload)
    (gid idv : PyVal) (h : dictGet d "Ensemble_Gene_ID" = some idv) :
    (edition_gene F st "delete" (EditData.pyDict d) gid).map Prod.fst =
      Except.ok 200 ∧
    (check_gene_exists st.genes idv = false →
      (edition_gene F st "delete" (EditData.pyDict d) gid).map
        (fun r => r.2.genes) = Except.ok st.genes) ∧
    ((edition_gene F st "delete" (EditData.pyDict d) gid >>= fun r =>
        edition_gene F r.2 "delete" (EditData.pyDict d) gid).map Prod.fst =
      Except.ok 200) := by
  obtain ⟨st1, he, hg⟩ := delete_result F st d gid idv h
  obtain ⟨st2, he2, -⟩ := delete_result F st1 d gid idv h
  refine ⟨by rw [he]; rfl, fun hex => by rw [he]; simp [hg hex], ?_⟩
  rw [he]
  simp only [exc_bind_ok]
  rw [he2]
  rfl

/-- Witness for C5 at a concrete delete payload against the empty database. -/
theorem C5_delete_always_ok_witness :
    (edition_gene noFault dbEmpty "delete" (EditData.pyDict c5delP)
      PyVal.vNone).map Prod.fst = Except.ok 200 ∧
    (check_gene_exists dbEmpty.genes (PyVal.vStr "F1") = false →
      (edition_gene noFault dbEmpty "delete" (EditData.pyDict c5delP)
        PyVal.vNone).map (fun r => r.2.genes) = Except.ok dbEmpty.genes) ∧
    ((edition_gene noFault dbEmpty "delete" (EditData.pyDict c5delP)
        PyVal.vNone >>= fun r =>
        edition_gene noFault r.2 "delete" (EditData.pyDict c5delP)
          PyVal.vNone).map Prod.fst = Except.ok 200) :=
  C5_delete_always_ok noFault dbEmpty c5delP PyVal.vNone (PyVal.vStr "F1")
    (by decide)

/-! ## Claims C1 (counterexample), C2, C3, C4 (counterexample), C7 -/

/-- C1 (counterexample): a bulk create of a valid record followed by an
invalid one (start 5 > end 2) does return the failing record's code 400, but
the batch is not aborted cleanly: one `insert_bulk_new_genes` call is made
for the valid prefix and the `Genes` table ends with that record committed —
storage does not end unmutated. -/
theorem C1_counterexample :
    edition_gene noFault dbEmpty "new" (EditData.pyList [c1okP, c1badP])
        PyVal.vNone =
      Except.ok (400,
        { genes := [c1okRow],
          calls := [SqlCall.callCheckExists (PyVal.vStr "A1"),
                    SqlCall.callCheckExists (PyVal.vStr "A2"),
                    SqlCall.callBulkInsert [c1okRow]] }) ∧
    [c1okRow] ≠ ([] : Storage) := by decide

/-- C2 (counterexample): a record with start 5 > end 2 whose id `"B1"`
already exists in storage fails the range check (`vCheck3` yields `true`),
yet the validator returns 409 (CONFLICT), not 400: the existence check runs
last and overwrites the earlier BAD_REQUEST. -/
theorem C2_counterexample :
    vCheck3 c2dupP = Except.ok true ∧
    check_gene_exists [c2row] (PyVal.vStr "B1") = true ∧
    verification_data_gene [c2row] c2dupP =
      Except.ok (409, [SqlCall.callCheckExists (PyVal.vStr "B1")]) := by decide

/-- C3 (code bug): on a payload missing the required field `Gene_Start`, the
validator does not return 400 — line 76 of `tp7.py` reads
`data["Gene_Start"]` unconditionally and raises `KeyError`, which
`edition_gene` does not catch, so create-single propagates the exception
instead of returning BAD_REQUEST. -/
theorem C3_missing_field_raises :
    dictHas c3missP "Gene_Start" = false ∧
    verification_data_gene [] c3missP =
      Except.error (PyErr.keyError "Gene_Start") ∧
    edition_gene noFault dbEmpty "new" (EditData.pyDict c3missP) PyVal.vNone =
      Except.error (PyErr.keyError "Gene_Start") := by decide

/-- C4 (counterexample): an update whose record id `"D1"` equals the target
id, on a record with start 5 > end 2 and an id not present in storage,
returns 400 with no insert performed — not CREATED (201) with an insert, as
the claim states for every update with matching ids on a non-existing id. -/
theorem C4_counterexample :
    check_gene_exists dbEmpty.genes (PyVal.vStr "D1") = false ∧
    edition_gene noFault dbEmpty "update" (EditData.pyDict c4badP)
        (PyVal.vStr "D1") =
      Except.ok (400, { genes := [],
                        calls := [SqlCall.callCheckExists (PyVal.vStr "D1")] }) := by
  decide

/-- C7 (counterexample): a payload containing the unrecognized key
`"Junk_Key"` alongside the five required fields has six supplied fields,
passes the seven-field count guard, and is accepted with 201 — the validator
does not return BAD_REQUEST for it. -/
theorem C7_counterexample :
    dictGet c7junkP "Junk_Key" = some (PyVal.vInt 0) ∧
    verification_data_gene [] c7junkP =
      Except.ok (201, [SqlCall.callCheckExists (PyVal.vStr "E1")]) := by decide

/-- C2 (amended): the validator's checks run in source order with each shape
failure recording 400, but the existence check runs last and overrides: for a
record with integer `Gene_Start` s and `Gene_End` e with s > e (and its
`Ensemble_Gene_ID` readable), the validator returns 409 (CONFLICT) whenever
the id already exists in storage, and 400 (BAD_REQUEST) — regardless of the
other fields — exactly when it does not. -/
theorem C2_amended (G : Storage) (d : Payload) (idv : PyVal) (s e : Int)
    (hid : dictGet d "Ensemble_Gene_ID" = some idv)
    (hs : dictGet d "Gene_Start" = some (PyVal.vInt s))
    (he : dictGet d "Gene_End" = some (PyVal.vInt e))
    (hlt : e < s) :
    (check_gene_exists G idv = true →
      (verification_data_gene G d).map Prod.fst = Except.ok 409) ∧
    (check_gene_exists G idv = false →
      (verification_data_gene G d).map Prod.fst = Except.ok 400) := by
  obtain ⟨h2, h3⟩ := vCheck23_int hs he
  have hc3 : (decide (s < 0) || decide (e < 0) || decide (e < s)) = true := by
    simp [hlt]
  rw [hc3] at h3
  have hv : vShapeChecks d = Except.ok 400 := by
    have hpair := vShapeChecks_intro h2 h3
    rwa [vShapeCode_c3_true] at hpair
  constructor <;> intro hex <;> rw [verif_intro hv hid] <;> simp [hex]

/-- Witness for C2 (amended) at the record `c2dupP` (start 5 > end 2, id
`"B1"`) against a storage containing `"B1"`. -/
theorem C2_amended_witness :
    (check_gene_exists [c2row] (PyVal.vStr "B1") = true →
      (verification_data_gene [c2row] c2dupP).map Prod.fst = Except.ok 409) ∧
    (check_gene_exists [c2row] (PyVal.vStr "B1") = false →
      (verification_data_gene [c2row] c2dupP).map Prod.fst = Except.ok 400) :=
  C2_amended [c2row] c2dupP (PyVal.vStr "B1") 5 2 (by decide) (by decide)
    (by decide) (by decide)

/-- C7 (amended): the field-count guard rejects exactly the payloads with
more than seven supplied fields: any payload with readable integer
`Gene_Start`/`Gene_End`, a readable id that is not yet stored, and more than
`len(required_fields) + 2 = 7` keys gets 400 — whereas an unrecognized extra
key inside the seven-field budget can pass (see the counterexample). -/
theorem C7_amended (G : Storage) (d : Payload) (idv : PyVal) (s e : Int)
    (_hnd : (d.map Prod.fst).Nodup)
    (hid : dictGet d "Ensemble_Gene_ID" = some idv)
    (hs : dictGet d "Gene_Start" = some (PyVal.vInt s))
    (he : dictGet d "Gene_End" = some (PyVal.vInt e))
    (hcount : dictLen d > requiredFields.length + 2)
    (hex : check_gene_exists G idv = false) :
    (verification_data_gene G d).map Prod.fst = Except.ok 400 := by
  obtain ⟨h2, h3⟩ := vCheck23_int hs he
  have hv : vShapeChecks d = Except.ok 400 := by
    have hpair := vShapeChecks_intro h2 h3
    rwa [vShapeCode_count _ _ hcount] at hpair
  rw [verif_intro hv hid]
  simp [hex]

/-- Witness for C7 (amended) at the eight-key payload `c7bigP`. -/
theorem C7_amended_witness :
    (verification_data_gene [] c7bigP).map Prod.fst = Except.ok 400 :=
  C7_amended [] c7bigP (PyVal.vStr "E2") 1 2 (by decide) (by decide) (by decide)
    (by decide) (by decide) (by decide)

/-! ## Helper lemmas: the create-single branch -/

theorem edition_new_dict (F : FaultOracle) (st : DBState) (d : Payload)
    (gid : PyVal) :
    edition_gene F st "new" (EditData.pyDict d) gid = newDictPath F st d := by
  simp [edition_gene]

theorem newDictPath_201 (F : FaultOracle) (st : DBState) (d : Payload)
    (row : GeneRow) (vcs : List SqlCall)
    (hval : verification_data_gene st.genes d = Except.ok (201, vcs))
    (hrow : geneRowOfPayload d = Except.ok row)
    (hfresh : check_gene_exists st.genes row.gene_id = false)
    (hF : F.failInsert st.genes row = false) :
    newDictPath F st d =
      Except.ok (201, { genes := st.genes ++ [row],
                        calls := st.calls ++ vcs ++ [SqlCall.callInsert row] }) := by
  unfold newDictPath
  rw [hval]
  simp only [exc_bind_ok]
  rw [hrow]
  unfold insert_new_gene
  simp [hF, hfresh, List.append_assoc]

theorem newDictPath_201_fail (F : FaultOracle) (st : DBState) (d : Payload)
    (row : GeneRow) (vcs : List SqlCall)
    (hval : verification_data_gene st.genes d = Except.ok (201, vcs))
    (hrow : geneRowOfPayload d = Except.ok row)
    (hF : F.failInsert st.genes row = true) :
    newDictPath F st d =
      Except.ok (500, { genes := st.genes,
                        calls := st.calls ++ vcs ++ [SqlCall.callInsert row] }) := by
  unfold newDictPath
  rw [hval]
  simp only [exc_bind_ok]
  rw [hrow]
  unfold insert_new_gene
  simp [hF, List.append_assoc]

theorem newDictPath_not201 (F : FaultOracle) (st : DBState) (d : Payload)
    (c : Nat) (vcs : List SqlCall)
    (hval : verification_data_gene st.genes d = Except.ok (c, vcs))
    (hc : c ≠ 201) :
    newDictPath F st d =
      Except.ok (c, { genes := st.genes, calls := st.calls ++ vcs }) := by
  unfold newDictPath
  rw [hval]
  simp [hc]

/-! ## Claim C8 -/

/-- C8: create-single behaviour given the validator's outcome `c` on the
current table.  If `c = 201` (ACCEPTED) and inserts do not fail, the record's
row is appended and 201 is returned, after which the id exists and re-running
the same create yields 409 with no further mutation; if `c = 201` but the
insert statement fails, the result is 500 with the table unchanged; if
`c = 400` or `c = 409`, that code is returned unchanged and the table is not
mutated. -/
theorem C8_create_single (F : FaultOracle) (st : DBState) (d : Payload)
    (c : Nat) (vcs : List SqlCall)
    (hval : verification_data_gene st.genes d = Except.ok (c, vcs)) :
    (c = 201 → (∀ g, F.failInsert st.genes g = false) →
      ∃ row st1, geneRowOfPayload d = Except.ok row ∧
        edition_gene F st "new" (EditData.pyDict d) PyVal.vNone =
          Except.ok (201, st1) ∧
        st1.genes = st.genes ++ [row] ∧
        check_gene_exists st1.genes row.gene_id = true ∧
        (edition_gene F st1 "new" (EditData.pyDict d) PyVal.vNone).map
          (fun r => (r.1, r.2.genes)) = Except.ok (409, st1.genes)) ∧
    (c = 201 → (∀ g, F.failInsert st.genes g = true) →
      (edition_gene F st "new" (EditData.pyDict d) PyVal.vNone).map
        (fun r => (r.1, r.2.genes)) = Except.ok (500, st.genes)) ∧
    (c = 400 ∨ c = 409 →
      (edition_gene F st "new" (EditData.pyDict d) PyVal.vNone).map
        (fun r => (r.1, r.2.genes)) = Except.ok (c, st.genes)) := by
  refine ⟨?_, ?_, ?_⟩
  · intro hc hF
    subst hc
    obtain ⟨row, hrow, hid, hfresh, hshape, hcs⟩ := verif_201_elim hval
    refine ⟨row, _, hrow,
      by rw [edition_new_dict,
             newDictPath_201 F st d row vcs hval hrow hfresh (hF row)], rfl,
      ?_, ?_⟩
    · simp [check_gene_exists]
    · have hex1 : check_gene_exists (st.genes ++ [row]) row.gene_id = true := by
        simp [check_gene_exists]
      have hval2 : verification_data_gene (st.genes ++ [row]) d =
          Except.ok (409, [SqlCall.callCheckExists row.gene_id]) := by
        have hgen := verif_intro
          (G := st.genes ++ [row]) (d := d) hshape hid
        rwa [hex1, if_pos rfl] at hgen
      rw [edition_new_dict,
          newDictPath_not201 F _ d 409 _ hval2 (by omega)]
      rfl
  · intro hc hF
    subst hc
    obtain ⟨row, hrow, -, -, -, -⟩ := verif_201_elim hval
    rw [edition_new_dict,
        newDictPath_201_fail F st d row vcs hval hrow (hF row)]
    rfl
  · intro hc
    rw [edition_new_dict, newDictPath_not201 F st d c vcs hval (by omega)]
    rfl

/-- Witness for C8: creating the fresh valid record `c8newP` in the empty
database. -/
theorem C8_create_single_witness :
    ((201 : Nat) = 201 → (∀ g, noFault.failInsert dbEmpty.genes g = false) →
      ∃ row st1, geneRowOfPayload c8newP = Except.ok row ∧
        edition_gene noFault dbEmpty "new" (EditData.pyDict c8newP)
          PyVal.vNone = Except.ok (201, st1) ∧
        st1.genes = dbEmpty.genes ++ [row] ∧
        check_gene_exists st1.genes row.gene_id = true ∧
        (edition_gene noFault st1 "new" (EditData.pyDict c8newP)
          PyVal.vNone).map (fun r => (r.1, r.2.genes)) =
            Except.ok (409, st1.genes)) ∧
    ((201 : Nat) = 201 → (∀ g, noFault.failInsert dbEmpty.genes g = true) →
      (edition_gene noFault dbEmpty "new" (EditData.pyDict c8newP)
        PyVal.vNone).map (fun r => (r.1, r.2.genes)) =
          Except.ok (500, dbEmpty.genes)) ∧
    ((201 : Nat) = 400 ∨ (201 : Nat) = 409 →
      (edition_gene noFault dbEmpty "new" (EditData.pyDict c8newP)
        PyVal.vNone).map (fun r => (r.1, r.2.genes)) =
          Except.ok (201, dbEmpty.genes)) :=
  C8_create_single noFault dbEmpty c8newP 201
    [SqlCall.callCheckExists (PyVal.vStr "H1")] (by decide)

/-! ## Helper lemmas: the update branch -/

theorem edition_update_dict (F : FaultOracle) (st : DBState) (data : EditData)
    (gid : PyVal) :
    edition_gene F st "update" data gid = updatePath F st data gid := by
  simp [edition_gene]

theorem updatePath_mismatch (F : FaultOracle) (st : DBState) (d : Payload)
    (gid idv : PyVal) (c : Nat) (vcs : List SqlCall)
    (hval : verification_data_gene st.genes d = Except.ok (c, vcs))
    (hid : dictGet d "Ensemble_Gene_ID" = some idv)
    (hne : gid ≠ idv) :
    updatePathDict F st d gid =
      Except.ok (400, { genes := st.genes, calls := st.calls ++ vcs }) := by
  unfold updatePathDict
  rw [hval]
  simp only [exc_bind_ok, getItem, hid]
  simp [hne]

theorem updatePath_exists_update (F : FaultOracle) (st : DBState) (d : Payload)
    (idv : PyVal) (row : GeneRow) (vcs : List SqlCall)
    (hval : verification_data_gene st.genes d = Except.ok (409, vcs))
    (hid : dictGet d "Ensemble_Gene_ID" = some idv)
    (hrow : geneRowOfPayload d = Except.ok row)
    (hF : F.failUpdate st.genes row = false) :
    updatePathDict F st d idv =
      Except.ok (200, { genes := applyUpdate st.genes row,
                        calls := st.calls ++ vcs ++ [SqlCall.callUpdate row] }) := by
  unfold updatePathDict
  rw [hval]
  simp only [exc_bind_ok, getItem, hid]
  simp only [ne_eq, not_true_eq_false, if_false, ite_self]
  rw [hrow]
  unfold update_gene
  simp [hF, List.append_assoc]

theorem updatePath_exists_update_fail (F : FaultOracle) (st : DBState)
    (d : Payload) (idv : PyVal) (row : GeneRow) (vcs : List SqlCall)
    (hval : verification_data_gene st.genes d = Except.ok (409, vcs))
    (hid : dictGet d "Ensemble_Gene_ID" = some idv)
    (hrow : geneRowOfPayload d = Except.ok row)
    (hF : F.failUpdate st.genes row = true) :
    updatePathDict F st d idv =
      Except.ok (500, { genes := st.genes,
                        calls := st.calls ++ vcs ++ [SqlCall.callUpdate row] }) := by
  unfold updatePathDict
  rw [hval]
  simp only [exc_bind_ok, getItem, hid]
  simp only [ne_eq, not_true_eq_false, if_false, ite_self]
  rw [hrow]
  unfold update_gene
  simp [hF, List.append_assoc]

theorem updatePath_fresh_insert (F : FaultOracle) (st : DBState) (d : Payload)
    (idv : PyVal) (row : GeneRow) (vcs : List SqlCall)
    (hval : verification_data_gene st.genes d = Except.ok (201, vcs))
    (hid : dictGet d "Ensemble_Gene_ID" = some idv)
    (hrow : geneRowOfPayload d = Except.ok row)
    (hfresh : check_gene_exists st.genes row.gene_id = false)
    (hF : F.failInsert st.genes row = false) :
    updatePathDict F st d idv =
      Except.ok (201, { genes := st.genes ++ [row],
                        calls := st.calls ++ vcs ++ [SqlCall.callInsert row] }) := by
  unfold updatePathDict
  rw [hval]
  simp only [exc_bind_ok, getItem, hid]
  simp only [ne_eq, not_true_eq_false, if_false, ite_self]
  rw [hrow]
  unfold insert_new_gene
  simp [hF, hfresh, List.append_assoc]

theorem updatePath_fresh_insert_fail (F : FaultOracle) (st : DBState)
    (d : Payload) (idv : PyVal) (row : GeneRow) (vcs : List SqlCall)
    (hval : verification_data_gene st.genes d = Except.ok (201, vcs))
    (hid : dictGet d "Ensemble_Gene_ID" = some idv)
    (hrow : geneRowOfPayload d = Except.ok row)
    (hF : F.failInsert st.genes row = true) :
    updatePathDict F st d idv =
      Except.ok (500, { genes := st.genes,
                        calls := st.calls ++ vcs ++ [SqlCall.callInsert row] }) := by
  unfold updatePathDict
  rw [hval]
  simp only [exc_bind_ok, getItem, hid]
  simp only [ne_eq, not_true_eq_false, if_false, ite_self]
  rw [hrow]
  unfold insert_new_gene
  simp [hF, List.append_assoc]

theorem updatePath_invalid (F : FaultOracle) (st : DBState) (d : Payload)
    (idv : PyVal) (vcs : List SqlCall)
    (hval : verification_data_gene st.genes d = Except.ok (400, vcs))
    (hid : dictGet d "Ensemble_Gene_ID" = some idv) :
    updatePathDict F st d idv =
      Except.ok (400, { genes := st.genes, calls := st.calls ++ vcs }) := by
  unfold updatePathDict
  rw [hval]
  simp only [exc_bind_ok, getItem, hid]
  simp

/-! ## Claim C4 -/

/-- C4 (amended): update behaviour given the validator's outcome `c` (which
equals 409 exactly when the target id exists in storage).  A target-id
mismatch yields 400.  With matching ids: on `c = 409` and an extractable
record, the update statement runs — replacing the stored row's fields in
place — and 200 is returned, or 500 with the table unchanged if the
statement fails; on `c = 201` an insert runs and 201 is returned, or 500 on
statement failure; on `c = 400` the result is 400; the table is unmutated in
every non-2xx case. -/
theorem C4_amended (F : FaultOracle) (st : DBState) (d : Payload)
    (gid idv : PyVal) (row : GeneRow) (c : Nat) (vcs : List SqlCall)
    (hval : verification_data_gene st.genes d = Except.ok (c, vcs))
    (hid : dictGet d "Ensemble_Gene_ID" = some idv) :
    (c = 409 ↔ check_gene_exists st.genes idv = true) ∧
    (gid ≠ idv →
      (edition_gene F st "update" (EditData.pyDict d) gid).map
        (fun r => (r.1, r.2.genes)) = Except.ok (400, st.genes)) ∧
    (c = 409 → geneRowOfPayload d = Except.ok row →
      F.failUpdate st.genes row = false →
      (edition_gene F st "update" (EditData.pyDict d) idv).map
        (fun r => (r.1, r.2.genes)) =
        Except.ok (200, applyUpdate st.genes row)) ∧
    (c = 409 → geneRowOfPayload d = Except.ok row →
      F.failUpdate st.genes row = true →
      (edition_gene F st "update" (EditData.pyDict d) idv).map
        (fun r => (r.1, r.2.genes)) = Except.ok (500, st.genes)) ∧
    (c = 201 → (∀ g, F.failInsert st.genes g = false) →
      ∃ row2, geneRowOfPayload d = Except.ok row2 ∧
        (edition_gene F st "update" (EditData.pyDict d) idv).map
          (fun r => (r.1, r.2.genes)) =
          Except.ok (201, st.genes ++ [row2])) ∧
    (c = 201 → (∀ g, F.failInsert st.genes g = true) →
      ∃ row2, geneRowOfPayload d = Except.ok row2 ∧
        (edition_gene F st "update" (EditData.pyDict d) idv).map
          (fun r => (r.1, r.2.genes)) = Except.ok (500, st.genes)) ∧
    (c = 400 →
      (edition_gene F st "update" (EditData.pyDict d) idv).map
        (fun r => (r.1, r.2.genes)) = Except.ok (400, st.genes)) := by
  have hed : ∀ g0, edition_gene F st "update" (EditData.pyDict d) g0 =
      updatePathDict F st d g0 := by
    intro g0
    simp [edition_gene, updatePath]
  refine ⟨?_, ?_, ?_, ?_, ?_, ?_, ?_⟩
  · obtain ⟨c0, idv2, hv, hid2, hc, -⟩ := verif_ok_elim hval
    have hsame : idv2 = idv := by
      rw [hid] at hid2
      injection hid2 with h
      exact h.symm
    rw [hsame] at hc
    obtain ⟨c2, c3, -, -, hcode⟩ := vShapeChecks_ok_elim hv
    have hmem := vShapeCode_mem d c2 c3
    rw [← hcode] at hmem
    cases hb : check_gene_exists st.genes idv
    · rw [hb, if_neg (by simp)] at hc
      subst hc
      rcases hmem with hm | hm <;> simp [hm]
    · rw [hb, if_pos rfl] at hc
      subst hc
      simp
  · intro hne
    rw [hed gid, updatePath_mismatch F st d gid idv c vcs hval hid hne]
    rfl
  · intro hc hrow hF
    subst hc
    rw [hed idv, updatePath_exists_update F st d idv row vcs hval hid hrow hF]
    rfl
  · intro hc hrow hF
    subst hc
    rw [hed idv,
        updatePath_exists_update_fail F st d idv row vcs hval hid hrow hF]
    rfl
  · intro hc hF
    subst hc
    obtain ⟨row2, hrow2, -, hfresh, -, -⟩ := verif_201_elim hval
    refine ⟨row2, hrow2, ?_⟩
    rw [hed idv,
        updatePath_fresh_insert F st d idv row2 vcs hval hid hrow2 hfresh
          (hF row2)]
    rfl
  · intro hc hF
    subst hc
    obtain ⟨row2, hrow2, -, -, -, -⟩ := verif_201_elim hval
    refine ⟨row2, hrow2, ?_⟩
    rw [hed idv,
        updatePath_fresh_insert_fail F st d idv row2 vcs hval hid hrow2
          (hF row2)]
    rfl
  · intro hc
    subst hc
    rw [hed idv, updatePath_invalid F st d idv vcs hval hid]
    rfl

/-- Witness for C4 (amended): updating id `"D4"` over a storage holding an
older row for `"D4"` (validator outcome 409). -/
theorem C4_amended_witness :
    ((409 : Nat) = 409 ↔
      check_gene_exists [c4oldRow] (PyVal.vStr "D4") = true) ∧
    (PyVal.vNone ≠ PyVal.vStr "D4" →
      (edition_gene noFault { genes := [c4oldRow], calls := [] } "update"
        (EditData.pyDict c4updP) PyVal.vNone).map
        (fun r => (r.1, r.2.genes)) = Except.ok (400, [c4oldRow])) ∧
    ((409 : Nat) = 409 → geneRowOfPayload c4updP = Except.ok c4updRow →
      noFault.failUpdate [c4oldRow] c4updRow = false →
      (edition_gene noFault { genes := [c4oldRow], calls := [] } "update"
        (EditData.pyDict c4updP) (PyVal.vStr "D4")).map
        (fun r => (r.1, r.2.genes)) =
        Except.ok (200, applyUpdate [c4oldRow] c4updRow)) ∧
    ((409 : Nat) = 409 → geneRowOfPayload c4updP = Except.ok c4updRow →
      noFault.failUpdate [c4oldRow] c4updRow = true →
      (edition_gene noFault { genes := [c4oldRow], calls := [] } "update"
        (EditData.pyDict c4updP) (PyVal.vStr "D4")).map
        (fun r => (r.1, r.2.genes)) = Except.ok (500, [c4oldRow])) ∧
    ((409 : Nat) = 201 → (∀ g, noFault.failInsert [c4oldRow] g = false) →
      ∃ row2, geneRowOfPayload c4updP = Except.ok row2 ∧
        (edition_gene noFault { genes := [c4oldRow], calls := [] } "update"
          (EditData.pyDict c4updP) (PyVal.vStr "D4")).map
          (fun r => (r.1, r.2.genes)) =
          Except.ok (201, [c4oldRow] ++ [row2])) ∧
    ((409 : Nat) = 201 → (∀ g, noFault.failInsert [c4oldRow] g = true) →
      ∃ row2, geneRowOfPayload c4updP = Except.ok row2 ∧
        (edition_gene noFault { genes := [c4oldRow], calls := [] } "update"
          (EditData.pyDict c4updP) (PyVal.vStr "D4")).map
          (fun r => (r.1, r.2.genes)) = Except.ok (500, [c4oldRow])) ∧
    ((409 : Nat) = 400 →
      (edition_gene noFault { genes := [c4oldRow], calls := [] } "update"
        (EditData.pyDict c4updP) (PyVal.vStr "D4")).map
        (fun r => (r.1, r.2.genes)) = Except.ok (400, [c4oldRow])) :=
  C4_amended noFault { genes := [c4oldRow], calls := [] } c4updP PyVal.vNone
    (PyVal.vStr "D4") c4updRow 409
    [SqlCall.callCheckExists (PyVal.vStr "D4")] (by decide) (by decide)

/-! ## Helper lemmas: chunking -/

theorem chunksOfAux_congr {α : Type _} (n : Nat) :
    ∀ (f1 f2 : Nat) (l : List α), l.length ≤ f1 → l.length ≤ f2 →
      chunksOfAux n f1 l = chunksOfAux n f2 l := by
  intro f1
  induction f1 with
  | zero =>
    intro f2 l h1 h2
    have hl : l = [] := List.eq_nil_of_length_eq_zero (Nat.le_zero.mp h1)
    subst hl
    cases f2 <;> rfl
  | succ f ih =>
    intro f2 l h1 h2
    cases l with
    | nil => cases f2 <;> rfl
    | cons x xs =>
      cases f2 with
      | zero => simp at h2
      | succ f2' =>
        simp only [chunksOfAux]
        congr 1
        have hd : (xs.drop (n - 1)).length ≤ xs.length := by
          simp [List.length_drop]
        have h1' : xs.length ≤ f := by simp at h1; omega
        have h2' : xs.length ≤ f2' := by simp at h2; omega
        exact ih f2' _ (le_trans hd h1') (le_trans hd h2')

theorem chunksOf_cons {α : Type _} (n : Nat) (x : α) (xs : List α) :
    chunksOf n (x :: xs) =
      (x :: xs.take (n - 1)) :: chunksOf n (xs.drop (n - 1)) := by
  show chunksOfAux n (x :: xs).length (x :: xs) = _
  simp only [List.length_cons, chunksOfAux]
  congr 1
  exact chunksOfAux_congr n xs.length (xs.drop (n - 1)).length _
    (by simp [List.length_drop]) le_rfl

theorem chunksOf_join {α : Type _} (n : Nat) (hn : 1 ≤ n) (l : List α) :
    (chunksOf n l).flatten = l := by
  cases l with
  | nil => rfl
  | cons x xs =>
    rw [chunksOf_cons]
    simp only [List.flatten_cons]
    rw [chunksOf_join n hn (xs.drop (n - 1))]
    simp [List.take_append_drop]
termination_by l.length
decreasing_by simp [List.length_drop]; omega

theorem chunksOf_length {α : Type _} (n : Nat) (hn : 1 ≤ n) (l : List α) :
    (chunksOf n l).length = (l.length + (n - 1)) / n := by
  cases l with
  | nil =>
    simp [chunksOf, chunksOfAux, Nat.div_eq_of_lt (by omega : n - 1 < n)]
  | cons x xs =>
    rw [chunksOf_cons]
    simp only [List.length_cons]
    rw [chunksOf_length n hn (xs.drop (n - 1)), List.length_drop]
    rcases le_or_lt (n - 1) xs.length with hle | hlt
    · rw [Nat.sub_add_cancel hle]
      have hrw : xs.length + 1 + (n - 1) = xs.length + n := by omega
      rw [hrw, Nat.add_div_right _ (by omega : 0 < n)]
    · have h0 : xs.length - (n - 1) = 0 := by omega
      rw [h0, Nat.zero_add, Nat.div_eq_of_lt (by omega : n - 1 < n)]
      have hrw : xs.length + 1 + (n - 1) = xs.length + n := by omega
      rw [hrw, Nat.add_div_right _ (by omega : 0 < n),
          Nat.div_eq_of_lt (by omega : xs.length < n)]
termination_by l.length
decreasing_by simp [List.length_drop]; omega

theorem chunksOf_full {α : Type _} (n : Nat) (hn : 1 ≤ n) (l : List α) :
    ∀ c ∈ (chunksOf n l).dropLast, c.length = n := by
  cases l with
  | nil => intro c hc; simp [chunksOf, chunksOfAux] at hc
  | cons x xs =>
    rw [chunksOf_cons]
    cases hrest : chunksOf n (xs.drop (n - 1)) with
    | nil => intro c hc; simp at hc
    | cons c1 t =>
      intro c hc
      rw [List.dropLast_cons₂] at hc
      rcases List.mem_cons.mp hc with rfl | hc2
      · have hne : xs.drop (n - 1) ≠ [] := by
          intro h0
          rw [h0] at hrest
          simp [chunksOf, chunksOfAux] at hrest
        have hlen : n - 1 ≤ xs.length := by
          by_contra hx
          exact hne (List.drop_eq_nil_of_le (by omega))
        simp [List.length_take, Nat.min_eq_left hlen]
        omega
      · have hrec := chunksOf_full n hn (xs.drop (n - 1))
        rw [hrest] at hrec
        exact hrec c hc2
termination_by l.length
decreasing_by simp [List.length_drop]; omega

theorem chunksOf_le {α : Type _} (n : Nat) (hn : 1 ≤ n) (l : List α) :
    ∀ c ∈ chunksOf n l, c.length ≤ n := by
  cases l with
  | nil => intro c hc; simp [chunksOf, chunksOfAux] at hc
  | cons x xs =>
    rw [chunksOf_cons]
    intro c hc
    rcases List.mem_cons.mp hc with rfl | hc2
    · simp only [List.length_cons, List.length_take]
      have hm := Nat.min_le_left (n - 1) xs.length
      omega
    · exact chunksOf_le n hn (xs.drop (n - 1)) c hc2
termination_by l.length
decreasing_by simp [List.length_drop]; omega

/-! ## Helper lemmas: row building and bulk insertion -/

theorem rowsOfPayloads_length : ∀ {l : List Payload} {rows : List GeneRow},
    rowsOfPayloads l = Except.ok rows → rows.length = l.length := by
  intro l
  induction l with
  | nil =>
    intro rows h
    simp only [rowsOfPayloads] at h
    simp at h
    simp [← h]
  | cons d rest ih =>
    intro rows h
    simp only [rowsOfPayloads] at h
    cases hg : geneRowOfPayload d with
    | error e => rw [hg] at h; simp at h
    | ok g =>
      rw [hg] at h
      cases hr : rowsOfPayloads rest with
      | error e => rw [hr] at h; simp at h
      | ok gs =>
        rw [hr] at h
        simp at h
        rw [← h]
        simp [ih hr]

theorem rowsOfPayloads_take_drop :
    ∀ {l : List Payload} {rows : List GeneRow} (k : Nat),
      rowsOfPayloads l = Except.ok rows →
      rowsOfPayloads (l.take k) = Except.ok (rows.take k) ∧
      rowsOfPayloads (l.drop k) = Except.ok (rows.drop k) := by
  intro l
  induction l with
  | nil =>
    intro rows k h
    simp only [rowsOfPayloads] at h
    simp at h
    subst h
    simp [rowsOfPayloads]
  | cons d rest ih =>
    intro rows k h
    simp only [rowsOfPayloads] at h
    cases hg : geneRowOfPayload d with
    | error e => rw [hg] at h; simp at h
    | ok g =>
      rw [hg] at h
      cases hr : rowsOfPayloads rest with
      | error e => rw [hr] at h; simp at h
      | ok gs =>
        rw [hr] at h
        simp at h
        subst h
        cases k with
        | zero =>
          constructor
          · simp [rowsOfPayloads]
          · simp only [List.drop_zero, rowsOfPayloads, hg, hr, exc_bind_ok,
                       exc_pure_eq]
        | succ k2 =>
          obtain ⟨h1, h2⟩ := ih k2 hr
          constructor
          · simp only [List.take_succ_cons, rowsOfPayloads, hg, h1,
                       exc_bind_ok, exc_pure_eq]
          · simpa using h2

theorem chunksOf_rows_fuel (n : Nat) (hn : 1 ≤ n) :
    ∀ (N : Nat) (l : List Payload) (rows : List GeneRow), l.length ≤ N →
      rowsOfPayloads l = Except.ok rows →
      List.Forall₂ (fun pc rc => rowsOfPayloads pc = Except.ok rc)
        (chunksOf n l) (chunksOf n rows) := by
  intro N
  induction N with
  | zero =>
    intro l rows hN h
    have hl : l = [] := List.eq_nil_of_length_eq_zero (Nat.le_zero.mp hN)
    subst hl
    simp only [rowsOfPayloads] at h
    simp at h
    subst h
    exact List.Forall₂.nil
  | succ N ih =>
    intro l rows hN h
    obtain ⟨m, rfl⟩ : ∃ m, n = m + 1 := ⟨n - 1, by omega⟩
    cases l with
    | nil =>
      simp only [rowsOfPayloads] at h
      simp at h
      subst h
      exact List.Forall₂.nil
    | cons d rest =>
      have hlen := rowsOfPayloads_length h
      cases rows with
      | nil => simp at hlen
      | cons g gs =>
        rw [chunksOf_cons, chunksOf_cons]
        have h1' : rowsOfPayloads (d :: rest.take m) =
            Except.ok (g :: gs.take m) := by
          simpa [List.take_succ_cons] using
            (rowsOfPayloads_take_drop (m + 1) h).1
        have h2' : rowsOfPayloads (rest.drop m) = Except.ok (gs.drop m) := by
          simpa [List.drop_succ_cons] using
            (rowsOfPayloads_take_drop (m + 1) h).2
        have hsz : (rest.drop m).length ≤ N := by
          simp only [List.length_cons] at hN
          simp [List.length_drop]
          omega
        simp only [Nat.add_sub_cancel]
        exact List.Forall₂.cons h1' (ih _ _ hsz h2')

theorem chunksOf_rows (n : Nat) (hn : 1 ≤ n) (l : List Payload)
    (rows : List GeneRow) (h : rowsOfPayloads l = Except.ok rows) :
    List.Forall₂ (fun pc rc => rowsOfPayloads pc = Except.ok rc)
      (chunksOf n l) (chunksOf n rows) :=
  chunksOf_rows_fuel n hn l.length l rows le_rfl h

theorem insertRows_ok : ∀ (G : Storage) (rs : List GeneRow),
    (∀ r ∈ rs, check_gene_exists G r.gene_id = false) →
    ((rs.map (fun r => r.gene_id)).Nodup) →
    insertRows G rs = some (G ++ rs) := by
  intro G rs
  induction rs generalizing G with
  | nil => intro _ _; simp [insertRows]
  | cons g rest ih =>
    intro hfresh hnd
    simp only [List.map_cons, List.nodup_cons] at hnd
    obtain ⟨hout, hnd2⟩ := hnd
    simp only [insertRows]
    rw [hfresh g (by simp)]
    simp only [Bool.false_eq_true, if_false]
    rw [ih (G ++ [g]) ?_ hnd2]
    · simp
    · intro r hr
      have hGr := hfresh r (List.mem_cons_of_mem g hr)
      simp only [check_gene_exists] at hGr
      have hne : (g.gene_id == r.gene_id) = false := by
        simp only [beq_eq_false_iff_ne, ne_eq]
        intro hgid
        exact hout (hgid ▸ List.mem_map_of_mem (fun r => r.gene_id) hr)
      simp only [check_gene_exists, List.any_append, List.any_cons,
                 List.any_nil, Bool.or_false, Bool.or_eq_false_iff]
      exact ⟨hGr, hne⟩

theorem bulkCalls_append (a b : List SqlCall) :
    bulkCalls (a ++ b) = bulkCalls a ++ bulkCalls b := by
  simp [bulkCalls, List.filterMap_append]

theorem bulkCalls_map (rcs : List (List GeneRow)) :
    bulkCalls (rcs.map SqlCall.callBulkInsert) = rcs := by
  induction rcs with
  | nil => rfl
  | cons c t ih =>
    simp only [List.map_cons, bulkCalls, List.filterMap_cons] at ih ⊢
    rw [ih]

theorem insert_bulk_ok (F : FaultOracle) (st : DBState) (pc : List Payload)
    (rc : List GeneRow) (hpc : rowsOfPayloads pc = Except.ok rc)
    (hF : F.failBulk st.genes rc = false)
    (hfresh : ∀ r ∈ rc, check_gene_exists st.genes r.gene_id = false)
    (hnd : (rc.map (fun r => r.gene_id)).Nodup) :
    insert_bulk_new_genes F st pc =
      (none, { genes := st.genes ++ rc,
               calls := st.calls ++ [SqlCall.callBulkInsert rc] }) := by
  unfold insert_bulk_new_genes
  rw [hpc]
  simp only [hF, Bool.false_eq_true, if_false]
  rw [insertRows_ok st.genes rc hfresh hnd]

theorem insert_bulk_oracle_fail (F : FaultOracle) (st : DBState)
    (pc : List Payload) (rc : List GeneRow)
    (hpc : rowsOfPayloads pc = Except.ok rc)
    (hF : F.failBulk st.genes rc = true) :
    insert_bulk_new_genes F st pc =
      (some PyErr.sqlError,
       { genes := st.genes,
         calls := st.calls ++ [SqlCall.callBulkInsert rc] }) := by
  unfold insert_bulk_new_genes
  rw [hpc]
  simp [hF]

theorem bulkInsertLoop_ok (F : FaultOracle) (resp : Nat)
    {pcs : List (List Payload)} {rcs : List (List GeneRow)}
    (hrel : List.Forall₂ (fun pc rc => rowsOfPayloads pc = Except.ok rc)
      pcs rcs) :
    ∀ (st : DBState),
      (∀ G0 rc, rc ∈ rcs → F.failBulk G0 rc = false) →
      (∀ r ∈ rcs.flatten, check_gene_exists st.genes r.gene_id = false) →
      ((rcs.flatten.map (fun r => r.gene_id)).Nodup) →
      bulkInsertLoop F resp st pcs =
        (resp, { genes := st.genes ++ rcs.flatten,
                 calls := st.calls ++ rcs.map SqlCall.callBulkInsert }) := by
  induction hrel with
  | nil => intro st _ _ _; simp [bulkInsertLoop]
  | @cons pc rc pcs2 rcs2 hpc hrest ih =>
    intro st hF hfresh hnd
    simp only [List.flatten_cons, List.map_append] at hfresh hnd
    have hndl : (rc.map (fun r => r.gene_id)).Nodup :=
      (List.nodup_append.mp hnd).1
    have hndr : ((rcs2.flatten.map (fun r => r.gene_id)).Nodup) :=
      (List.nodup_append.mp hnd).2.1
    have hdisj : (rc.map (fun r => r.gene_id)).Disjoint
        (rcs2.flatten.map (fun r => r.gene_id)) :=
      (List.nodup_append.mp hnd).2.2
    simp only [bulkInsertLoop]
    rw [insert_bulk_ok F st pc rc hpc (hF st.genes rc (by simp))
         (fun r hr => hfresh r (List.mem_append_left _ hr)) hndl]
    show bulkInsertLoop F resp
        { genes := st.genes ++ rc,
          calls := st.calls ++ [SqlCall.callBulkInsert rc] } pcs2 = _
    rw [ih _ (fun G0 c hc => hF G0 c (by simp [hc])) ?_ hndr]
    · simp [List.append_assoc]
    · intro r hr
      simp only [check_gene_exists, List.any_append, Bool.or_eq_false_iff]
      constructor
      · have := hfresh r (List.mem_append_right _ hr)
        simpa [check_gene_exists] using this
      · apply List.any_eq_false.mpr
        intro x hx
        simp only [beq_iff_eq]
        intro hxe
        exact hdisj (List.mem_map_of_mem _ hx)
          (hxe ▸ List.mem_map_of_mem (fun r => r.gene_id) hr)

theorem bulkInsertLoop_fail (F : FaultOracle) (resp : Nat)
    {ppre : List (List Payload)} {rpre : List (List GeneRow)}
    (hrel : List.Forall₂ (fun pc rc => rowsOfPayloads pc = Except.ok rc)
      ppre rpre)
    (pbad : List Payload) (rbad : List GeneRow)
    (prest : List (List Payload))
    (hbad : rowsOfPayloads pbad = Except.ok rbad)
    (hFbad : ∀ G0, F.failBulk G0 rbad = true) :
    ∀ (st : DBState),
      (∀ G0 rc, rc ∈ rpre → F.failBulk G0 rc = false) →
      (∀ r ∈ rpre.flatten, check_gene_exists st.genes r.gene_id = false) →
      ((rpre.flatten.map (fun r => r.gene_id)).Nodup) →
      bulkInsertLoop F resp st (ppre ++ pbad :: prest) =
        (500, { genes := st.genes ++ rpre.flatten,
                calls := st.calls ++ rpre.map SqlCall.callBulkInsert ++
                         [SqlCall.callBulkInsert rbad] }) := by
  induction hrel with
  | nil =>
    intro st _ _ _
    simp only [List.nil_append, bulkInsertLoop]
    rw [insert_bulk_oracle_fail F st pbad rbad hbad (hFbad st.genes)]
    simp
  | @cons pc rc pcs2 rcs2 hpc hrest ih =>
    intro st hF hfresh hnd
    simp only [List.flatten_cons, List.map_append] at hfresh hnd
    have hndl : (rc.map (fun r => r.gene_id)).Nodup :=
      (List.nodup_append.mp hnd).1
    have hndr : ((rcs2.flatten.map (fun r => r.gene_id)).Nodup) :=
      (List.nodup_append.mp hnd).2.1
    have hdisj : (rc.map (fun r => r.gene_id)).Disjoint
        (rcs2.flatten.map (fun r => r.gene_id)) :=
      (List.nodup_append.mp hnd).2.2
    simp only [List.cons_append, bulkInsertLoop]
    rw [insert_bulk_ok F st pc rc hpc (hF st.genes rc (by simp))
         (fun r hr => hfresh r (List.mem_append_left _ hr)) hndl]
    show bulkInsertLoop F resp
        { genes := st.genes ++ rc,
          calls := st.calls ++ [SqlCall.callBulkInsert rc] }
        (pcs2 ++ pbad :: prest) = _
    rw [ih _ (fun G0 c hc => hF G0 c (by simp [hc])) ?_ hndr]
    · simp [List.append_assoc]
    · intro r hr
      simp only [check_gene_exists, List.any_append, Bool.or_eq_false_iff]
      constructor
      · have := hfresh r (List.mem_append_right _ hr)
        simpa [check_gene_exists] using this
      · apply List.any_eq_false.mpr
        intro x hx
        simp only [beq_iff_eq]
        intro hxe
        exact hdisj (List.mem_map_of_mem _ hx)
          (hxe ▸ List.mem_map_of_mem (fun r => r.gene_id) hr)

/-! ## Helper lemmas: the bulk validation loop -/

theorem bulkValidate_all (G : Storage) :
    ∀ (l : List Payload),
      (∀ p ∈ l, (verification_data_gene G p).map Prod.fst = Except.ok 201) →
      ∃ cs, bulkValidate G l = Except.ok (201, l, cs) ∧ bulkCalls cs = [] := by
  intro l
  induction l with
  | nil => intro _; exact ⟨[], rfl, rfl⟩
  | cons p rest ih =>
    intro h
    obtain ⟨cs0, hp⟩ := exc_mapFst_ok (h p (by simp))
    obtain ⟨cs1, hrec, hb1⟩ := ih (fun q hq => h q (by simp [hq]))
    refine ⟨cs0 ++ cs1, ?_, ?_⟩
    · simp only [bulkValidate]
      rw [hp]
      simp [hrec]
    · rw [bulkCalls_append, verif_ok_bulkCalls hp, hb1]
      rfl

theorem bulkValidate_break (G : Storage) (bad : Payload) (cbad : Nat)
    (vcs : List SqlCall) (rest : List Payload)
    (hbad : verification_data_gene G bad = Except.ok (cbad, vcs))
    (hne : cbad ≠ 201) :
    ∀ (pre : List Payload),
      (∀ p ∈ pre, (verification_data_gene G p).map Prod.fst = Except.ok 201) →
      ∃ cs, bulkValidate G (pre ++ bad :: rest) = Except.ok (cbad, pre, cs) ∧
        bulkCalls cs = [] := by
  intro pre
  induction pre with
  | nil =>
    intro _
    refine ⟨vcs, ?_, verif_ok_bulkCalls hbad⟩
    simp only [List.nil_append, bulkValidate]
    rw [hbad]
    simp [hne]
  | cons p pre2 ih =>
    intro h
    obtain ⟨cs0, hp⟩ := exc_mapFst_ok (h p (by simp))
    obtain ⟨cs1, hrec, hb1⟩ := ih (fun q hq => h q (by simp [hq]))
    refine ⟨cs0 ++ cs1, ?_, ?_⟩
    · simp only [List.cons_append, bulkValidate]
      rw [hp]
      simp [hrec]
    · rw [bulkCalls_append, verif_ok_bulkCalls hp, hb1]
      rfl

theorem edition_new_list (F : FaultOracle) (st : DBState) (l : List Payload)
    (gid : PyVal) :
    edition_gene F st "new" (EditData.pyList l) gid = newListPath F st l := by
  simp [edition_gene]

theorem forall₂_split_right {α β : Type _} {R : α → β → Prop} :
    ∀ {l1 : List β} {l : List α} {b : β} {l2 : List β},
      List.Forall₂ R l (l1 ++ b :: l2) →
      ∃ m1 a m2, l = m1 ++ a :: m2 ∧ List.Forall₂ R m1 l1 ∧ R a b ∧
        List.Forall₂ R m2 l2 := by
  intro l1
  induction l1 with
  | nil =>
    intro l b l2 h
    cases h with
    | cons hab ht => exact ⟨[], _, _, rfl, List.Forall₂.nil, hab, ht⟩
  | cons b1 t1 ih =>
    intro l b l2 h
    cases h with
    | cons hab ht =>
      obtain ⟨m1, a, m2, rfl, h1, h2, h3⟩ := ih ht
      exact ⟨_ :: m1, a, m2, rfl, List.Forall₂.cons hab h1, h2, h3⟩

/-! ## Claims C1 and C6 -/

/-- C1 (amended): on a bulk create whose records validate to 201 up to a
first failing record (code `cbad` ≠ 201), the loop stops at that record and
`cbad` is returned (no later chunk failing, here: no spurious storage
failures), but the valid prefix is still chunked and committed through
`insert_bulk_new_genes`; the table is unmutated and no bulk-insert call is
made exactly when the failing record is the first of the batch. -/
theorem C1_amended (F : FaultOracle) (st : DBState) (gid : PyVal)
    (pre rest : List Payload) (bad : Payload) (prerows : List GeneRow)
    (cbad : Nat) (vcs : List SqlCall)
    (hpre : ∀ p ∈ pre,
      (verification_data_gene st.genes p).map Prod.fst = Except.ok 201)
    (hbad : verification_data_gene st.genes bad = Except.ok (cbad, vcs))
    (hne : cbad ≠ 201)
    (hrows : rowsOfPayloads pre = Except.ok prerows)
    (hnd : (prerows.map (fun r => r.gene_id)).Nodup)
    (hfresh : ∀ r ∈ prerows, check_gene_exists st.genes r.gene_id = false)
    (hF : ∀ G0 rc, F.failBulk G0 rc = false) :
    ∃ st1, edition_gene F st "new" (EditData.pyList (pre ++ bad :: rest)) gid =
        Except.ok (cbad, st1) ∧
      st1.genes = st.genes ++ prerows ∧
      bulkCalls st1.calls = bulkCalls st.calls ++ chunksOf 100 prerows ∧
      (pre = [] →
        st1.genes = st.genes ∧ bulkCalls st1.calls = bulkCalls st.calls) := by
  obtain ⟨cs, hbv, hbc⟩ :=
    bulkValidate_break st.genes bad cbad vcs rest hbad hne pre hpre
  rw [edition_new_list]
  unfold newListPath
  rw [hbv]
  simp only [exc_bind_ok]
  have hrel := chunksOf_rows 100 (by omega) pre prerows hrows
  have hjoin : (chunksOf 100 prerows).flatten = prerows :=
    chunksOf_join 100 (by omega) prerows
  have hloop := bulkInsertLoop_ok F cbad hrel
    { genes := st.genes, calls := st.calls ++ cs }
    (fun G0 rc _ => hF G0 rc)
    (fun r hr => hfresh r (hjoin ▸ hr))
    (by rw [hjoin]; exact hnd)
  rw [hloop]
  refine ⟨_, rfl, by simp [hjoin], ?_, ?_⟩
  · simp only [bulkCalls_append, bulkCalls_map, hbc]
    simp
  · intro h0
    subst h0
    have hpr : prerows = [] := by
      simp only [rowsOfPayloads] at hrows
      simpa using hrows
    subst hpr
    constructor
    · simp [chunksOf, chunksOfAux]
    · simp only [bulkCalls_append, bulkCalls_map, hbc]
      simp [chunksOf, chunksOfAux]

/-- Witness for C1 (amended): the two-record batch `[c1okP, c1badP]` against
the empty database. -/
theorem C1_amended_witness :
    ∃ st1, edition_gene noFault dbEmpty "new"
        (EditData.pyList ([c1okP] ++ c1badP :: [])) PyVal.vNone =
        Except.ok (400, st1) ∧
      st1.genes = dbEmpty.genes ++ [c1okRow] ∧
      bulkCalls st1.calls = bulkCalls dbEmpty.calls ++ chunksOf 100 [c1okRow] ∧
      ([c1okP] = ([] : List Payload) →
        st1.genes = dbEmpty.genes ∧
        bulkCalls st1.calls = bulkCalls dbEmpty.calls) :=
  C1_amended noFault dbEmpty PyVal.vNone [c1okP] [] c1badP [c1okRow] 400
    [SqlCall.callCheckExists (PyVal.vStr "A2")]
    (by decide) (by decide) (by decide) (by decide) (by decide) (by decide)
    (fun _ _ => rfl)

/-- C6: bulk-create chunking.  Success half: a batch whose records all
validate to 201, with pairwise-distinct fresh ids and no storage failures,
commits exactly its rows in order through one `insert_bulk_new_genes` call
per chunk of `chunksOf 100`, returns 201, and the chunk list partitions the
batch in order (`flatten` gives back the rows), every chunk has at most 100
rows, every non-final chunk exactly 100, and the number of chunks equals
`tp4`'s reported batch count `ceil(n/100)` (so 250 records make chunks of
100, 100, 50 and batch count 3).  Failure half: when the bulk insert of a
chunk fails, the loop stops with 500, the chunks before it stay committed
and the failing chunk's statement is the last bulk call issued. -/
theorem C6_bulk_chunking (F Ff : FaultOracle) (st st2 : DBState) (gid : PyVal)
    (data data2 : List Payload) (rows rows2 : List GeneRow)
    (rpre : List (List GeneRow)) (rbad : List GeneRow)
    (rpost : List (List GeneRow))
    (hval : ∀ p ∈ data,
      (verification_data_gene st.genes p).map Prod.fst = Except.ok 201)
    (hrows : rowsOfPayloads data = Except.ok rows)
    (hnd : (rows.map (fun r => r.gene_id)).Nodup)
    (hfresh : ∀ r ∈ rows, check_gene_exists st.genes r.gene_id = false)
    (hF : ∀ G0 rc, F.failBulk G0 rc = false)
    (hval2 : ∀ p ∈ data2,
      (verification_data_gene st2.genes p).map Prod.fst = Except.ok 201)
    (hrows2 : rowsOfPayloads data2 = Except.ok rows2)
    (hnd2 : (rows2.map (fun r => r.gene_id)).Nodup)
    (hfresh2 : ∀ r ∈ rows2, check_gene_exists st2.genes r.gene_id = false)
    (hsplit : chunksOf 100 rows2 = rpre ++ rbad :: rpost)
    (hFf1 : ∀ G0 rc, rc ∈ rpre → Ff.failBulk G0 rc = false)
    (hFf2 : ∀ G0, Ff.failBulk G0 rbad = true) :
    (∃ st1, edition_gene F st "new" (EditData.pyList data) gid =
        Except.ok (201, st1) ∧
      st1.genes = st.genes ++ rows ∧
      bulkCalls st1.calls = bulkCalls st.calls ++ chunksOf 100 rows ∧
      (chunksOf 100 rows).flatten = rows ∧
      rows.length = data.length ∧
      (chunksOf 100 rows).length = api_bulk_count data ∧
      (∀ c ∈ (chunksOf 100 rows).dropLast, c.length = 100) ∧
      (∀ c ∈ chunksOf 100 rows, c.length ≤ 100)) ∧
    (∃ st3, edition_gene Ff st2 "new" (EditData.pyList data2) gid =
        Except.ok (500, st3) ∧
      st3.genes = st2.genes ++ rpre.flatten ∧
      bulkCalls st3.calls = bulkCalls st2.calls ++ rpre ++ [rbad]) := by
  constructor
  · obtain ⟨cs, hbv, hbc⟩ := bulkValidate_all st.genes data hval
    rw [edition_new_list]
    unfold newListPath
    rw [hbv]
    simp only [exc_bind_ok]
    have hrel := chunksOf_rows 100 (by omega) data rows hrows
    have hjoin := chunksOf_join 100 (by omega) rows
    have hloop := bulkInsertLoop_ok F 201 hrel
      { genes := st.genes, calls := st.calls ++ cs }
      (fun G0 rc _ => hF G0 rc)
      (fun r hr => hfresh r (hjoin ▸ hr))
      (by rw [hjoin]; exact hnd)
    rw [hloop]
    refine ⟨_, rfl, by simp [hjoin], ?_, hjoin, rowsOfPayloads_length hrows,
      ?_, chunksOf_full 100 (by omega) rows, chunksOf_le 100 (by omega) rows⟩
    · simp [bulkCalls_append, bulkCalls_map, hbc]
    · rw [chunksOf_length 100 (by omega) rows, rowsOfPayloads_length hrows]
      rfl
  · obtain ⟨cs2, hbv2, hbc2⟩ := bulkValidate_all st2.genes data2 hval2
    rw [edition_new_list]
    unfold newListPath
    rw [hbv2]
    simp only [exc_bind_ok]
    have hrel2 := chunksOf_rows 100 (by omega) data2 rows2 hrows2
    rw [hsplit] at hrel2
    obtain ⟨ppre, pbad, ppost, hpeq, hr1, hr2, -⟩ :=
      forall₂_split_right hrel2
    rw [hpeq]
    have hjoin2 : (chunksOf 100 rows2).flatten = rows2 :=
      chunksOf_join 100 (by omega) rows2
    rw [hsplit] at hjoin2
    have hflat : rpre.flatten ++ (rbad ++ rpost.flatten) = rows2 := by
      simpa [List.flatten_append, List.flatten_cons, List.append_assoc]
        using hjoin2
    have hsub : ∀ r ∈ rpre.flatten, r ∈ rows2 := by
      intro r hr
      rw [← hflat]
      exact List.mem_append_left _ hr
    have hnd2f : ((rpre.flatten.map (fun r => r.gene_id)).Nodup) := by
      have hmap : rows2.map (fun r => r.gene_id) =
          rpre.flatten.map (fun r => r.gene_id) ++
          (rbad ++ rpost.flatten).map (fun r => r.gene_id) := by
        rw [← hflat]
        simp
      rw [hmap] at hnd2
      exact (List.nodup_append.mp hnd2).1
    have hloopf := bulkInsertLoop_fail Ff 201 hr1 pbad rbad ppost hr2 hFf2
      { genes := st2.genes, calls := st2.calls ++ cs2 }
      hFf1 (fun r hr => hfresh2 r (hsub r hr)) hnd2f
    rw [hloopf]
    refine ⟨_, rfl, rfl, ?_⟩
    have hsingle : bulkCalls [SqlCall.callBulkInsert rbad] = [rbad] := rfl
    simp [bulkCalls_append, bulkCalls_map, hbc2, hsingle, List.append_assoc]

/-- Witness for C6: the two-record batch `[c6p1, c6p2]` succeeds in one
chunk; the one-record batch `[c6p3]` under an oracle failing every bulk
insert stops with 500 and nothing committed. -/
theorem C6_bulk_chunking_witness :
    (∃ st1, edition_gene noFault dbEmpty "new"
        (EditData.pyList [c6p1, c6p2]) PyVal.vNone = Except.ok (201, st1) ∧
      st1.genes = dbEmpty.genes ++ [c6r1, c6r2] ∧
      bulkCalls st1.calls =
        bulkCalls dbEmpty.calls ++ chunksOf 100 [c6r1, c6r2] ∧
      (chunksOf 100 [c6r1, c6r2]).flatten = [c6r1, c6r2] ∧
      ([c6r1, c6r2] : List GeneRow).length = ([c6p1, c6p2] : List Payload).length ∧
      (chunksOf 100 [c6r1, c6r2]).length = api_bulk_count [c6p1, c6p2] ∧
      (∀ c ∈ (chunksOf 100 [c6r1, c6r2]).dropLast, c.length = 100) ∧
      (∀ c ∈ chunksOf 100 [c6r1, c6r2], c.length ≤ 100)) ∧
    (∃ st3, edition_gene failAllBulk dbEmpty "new"
        (EditData.pyList [c6p3]) PyVal.vNone = Except.ok (500, st3) ∧
      st3.genes = dbEmpty.genes ++ ([] : List (List GeneRow)).flatten ∧
      bulkCalls st3.calls =
        bulkCalls dbEmpty.calls ++ ([] : List (List GeneRow)) ++ [[c6r3]]) :=
  C6_bulk_chunking noFault failAllBulk dbEmpty dbEmpty PyVal.vNone
    [c6p1, c6p2] [c6p3] [c6r1, c6r2] [c6r3] [] [c6r3] []
    (by decide) (by decide) (by decide) (by decide) (fun _ _ => rfl)
    (by decide) (by decide) (by decide) (by decide) (by decide)
    (fun _ _ h => absurd h (List.not_mem_nil _)) (fun _ => rfl)
